import Mathlib

/-!
Verification of the Plex Media Server Manager plugin core
(`plex_server.py`, `plex_media_container.py`, `plex_client.py`).

The Python code is embedded shallowly: state-bag updates become explicit
association-list updates, the network becomes an explicit outcome argument
per request, and numeric conversions follow Python semantics (`int(...)`
parsing, truncating `int()` on floats, `datetime.timedelta` display,
IEEE-754 binary64 arithmetic for the percent-complete computation).
-/

namespace PlexSpec

/-! ## Python `int(str)` parsing

Models CPython `int` applied to a string: surrounding whitespace is
stripped, an optional single sign is allowed, and the body must be a
nonempty run of ASCII digits in which single underscores may appear
between digits.  Returns `none` where Python raises `ValueError`. -/

def isPyDigit (c : Char) : Bool :=
  '0' ≤ c && c ≤ '9'

def isPySpace (c : Char) : Bool :=
  c = ' ' || c = '\t' || c = '\n' || c = '\r' || c = '\x0b' || c = '\x0c'

def digitVal (c : Char) : Nat := c.toNat - '0'.toNat

/-- Valid digit body with underscores only between digits: `d (d | _d)*`. -/
def digitsBodyOk : List Char → Bool
  | [] => false
  | c :: rest =>
    isPyDigit c && go rest
where
  go : List Char → Bool
    | [] => true
    | '_' :: c :: rest => isPyDigit c && go rest
    | c :: rest => isPyDigit c && go rest

def digitsValue (cs : List Char) : Nat :=
  (cs.filter (· ≠ '_')).foldl (fun acc c => acc * 10 + digitVal c) 0

/-- Python `str.replace` for a nonempty pattern: replace non-overlapping
occurrences left to right (the patterns used by the plugin, `'Slot '` and
`'/children'`, are nonempty; an empty pattern returns the string
unchanged here). -/
def pyReplaceAux (pat repl : List Char) : Nat → List Char → List Char
  | 0, cs => cs
  | fuel + 1, cs =>
    match cs with
    | [] => []
    | c :: rest =>
      if cs.take pat.length = pat then
        repl ++ pyReplaceAux pat repl fuel (cs.drop pat.length)
      else
        c :: pyReplaceAux pat repl fuel rest

def pyReplace (s pat repl : String) : String :=
  if pat = "" then s
  else ⟨pyReplaceAux pat.toList repl.toList s.toList.length s.toList⟩

def pythonInt (s : String) : Option Int :=
  let cs := (s.toList.dropWhile isPySpace).reverse.dropWhile isPySpace |>.reverse
  match cs with
  | '+' :: rest => if digitsBodyOk rest then some (digitsValue rest) else none
  | '-' :: rest => if digitsBodyOk rest then some (-(digitsValue rest : Int)) else none
  | rest => if digitsBodyOk rest then some (digitsValue rest) else none

/-! ## Python `str(datetime.timedelta(seconds = n))`

The plugin renders durations with `str(datetime.timedelta(seconds = n))`
where `n` is a Python int (milliseconds floor-divided by 1000).  CPython
normalizes to days plus a nonnegative remainder and prints
`[D day(s), ]H:MM:SS` with `H` unpadded and `MM`/`SS` zero-padded. -/

def pad2 (n : Nat) : String :=
  if n < 10 then "0" ++ toString n else toString n

def pyTimedeltaStr (totalSeconds : Int) : String :=
  let days : Int := Int.fdiv totalSeconds 86400
  let rem : Nat := (Int.fmod totalSeconds 86400).toNat
  let h : Nat := rem / 3600
  let m : Nat := (rem % 3600) / 60
  let s : Nat := rem % 60
  let core := toString h ++ ":" ++ pad2 m ++ ":" ++ pad2 s
  if days = 0 then core
  else
    toString days ++ " day" ++ (if days = 1 ∨ days = -1 then "" else "s") ++ ", " ++ core

/-! ## IEEE-754 binary64 model for the percent-complete computation

`plex_server.py` computes
`percent_complete = int((float(current_offset) / float(content_duration)) * 100.0)`.
We model binary64 with a 53-bit significand and round-to-nearest, ties to
even, with an unbounded exponent (exact over the normal range; overflow
and subnormals, which require inputs far outside media durations, are not
modelled).  A positive float is a pair `(m, e)` denoting `m * 2 ^ e` with
`2 ^ 52 ≤ m < 2 ^ 53`. -/

/-- Bit length of a natural number (`0` for `0`), via explicit fuel. -/
def bitlenAux : Nat → Nat → Nat
  | 0, _ => 0
  | fuel + 1, n => if n = 0 then 0 else bitlenAux fuel (n / 2) + 1

def bitlen (n : Nat) : Nat := bitlenAux n n

/-- Round `num / den` to the nearest integer, ties to even (`den > 0`). -/
def rne (num den : Nat) : Nat :=
  let q := num / den
  let r := num % den
  if 2 * r < den then q
  else if den < 2 * r then q + 1
  else if q % 2 = 0 then q else q + 1

/-- A positive binary64 value: significand times a power of two. -/
structure F64 where
  m : Nat
  e : Int

/-- Renormalize after rounding possibly produced a significand of `2^53`. -/
def fixCarry (x : F64) : F64 :=
  if x.m = 2 ^ 53 then ⟨2 ^ 52, x.e + 1⟩ else x

/-- Model of `float(a)` for a positive Python int `a`: round to 53 significant bits. -/
def natToF64 (a : Nat) : F64 :=
  let l : Int := (bitlen a : Int) - 53
  if l ≤ 0 then
    ⟨a * 2 ^ (-l).toNat, l⟩
  else
    fixCarry ⟨rne a (2 ^ l.toNat), l⟩

/-- Binary64 division of positive floats, round to nearest, ties to even. -/
def fdiv (x y : F64) : F64 :=
  if x.m ≥ y.m then
    fixCarry ⟨rne (x.m * 2 ^ 52) y.m, x.e - y.e - 52⟩
  else
    fixCarry ⟨rne (x.m * 2 ^ 53) y.m, x.e - y.e - 53⟩

/-- Binary64 multiplication of a positive float by the exact constant `100.0`. -/
def fmul100 (x : F64) : F64 :=
  let p := x.m * 100
  let s : Int := (bitlen p : Int) - 53
  if s ≤ 0 then ⟨p, x.e⟩
  else fixCarry ⟨rne p (2 ^ s.toNat), x.e + s⟩

/-- Model of `int()` truncation of a positive binary64 value (floor, since positive). -/
def truncF64 (x : F64) : Nat :=
  if x.e ≥ 0 then x.m * 2 ^ x.e.toNat else x.m / 2 ^ (-x.e).toNat

/-- The percent-complete computation of `_update_client_with_session`
(`plex_server.py` lines 671-675): `0` when offset or duration is `0`,
otherwise `int((float(offset) / float(duration)) * 100.0)` in binary64. -/
def percentComplete (currentOffset contentDuration : Int) : Int :=
  if currentOffset = 0 ∨ contentDuration = 0 then 0
  else
    let a := currentOffset.natAbs
    let b := contentDuration.natAbs
    let t := truncF64 (fmul100 (fdiv (natToF64 a) (natToF64 b)))
    if (currentOffset < 0) ≠ (contentDuration < 0) then -(t : Int) else (t : Int)

/-! ## XML documents and attribute/state bags

`xml.etree.ElementTree` elements are modelled as a tag, an attribute
list, and a child list.  `Element.items()` iteration order is attribute
order, so attribute maps are association lists with first-match lookup
(dictionary writes during `_load_xml_element_to_dict` keep the last value
for a repeated key; XML forbids repeated attributes, so first-match
lookup over the document's attribute list is faithful). -/

inductive XmlNode where
  | node (tag : String) (attrs : List (String × String)) (children : List XmlNode)

def XmlNode.tag : XmlNode → String
  | .node t _ _ => t

def XmlNode.attrs : XmlNode → List (String × String)
  | .node _ a _ => a

def XmlNode.children : XmlNode → List XmlNode
  | .node _ _ c => c

/-- Model of `element.findall(tag)`: matching direct children in document order. -/
def XmlNode.findall (x : XmlNode) (t : String) : List XmlNode :=
  x.children.filter (fun c => c.tag = t)

/-- Model of `element.find(tag)`: first matching direct child, if any. -/
def XmlNode.findFirst (x : XmlNode) (t : String) : Option XmlNode :=
  x.children.find? (fun c => c.tag = t)

/-- Model of `dict.get(key, default)` over a string-valued attribute bag. -/
def attGet (atts : List (String × String)) (key dflt : String) : String :=
  match atts.find? (fun kv => kv.1 = key) with
  | some kv => kv.2
  | none => dflt

/-- A value held in an Indigo device state bag (string or int states). -/
inductive Val where
  | str (s : String)
  | int (n : Int)
deriving DecidableEq, Repr

/-- Model of `device.states.get(key, default)`: first-match lookup (updates are
prepended, so the first match is the most recent write). -/
def stGet (states : List (String × Val)) (key : String) (dflt : Val) : Val :=
  match states.find? (fun kv => kv.1 = key) with
  | some kv => kv.2
  | none => dflt

def stGet? (states : List (String × Val)) (key : String) : Option Val :=
  (states.find? (fun kv => kv.1 = key)).map (fun kv => kv.2)

/-- Model of `device.updateStatesOnServer(upd)` / `updateStateOnServer`: each entry
sets its key; a later entry in `upd` wins, which reverse-prepending gives
under first-match lookup. -/
def applyStates (states upd : List (String × Val)) : List (String × Val) :=
  upd.reverse ++ states

/-! ## The MediaContainer parser (`plex_media_container.py`) -/

def MEDIACONTAINERTYPE_UNKNOWN : Nat := 0
def MEDIACONTAINERTYPE_SERVERNODE : Nat := 1
def MEDIACONTAINERTYPE_CLIENTLIST : Nat := 2
def MEDIACONTAINERTYPE_SESSIONLIST : Nat := 3

/-- The `PlexMediaContainerDirectory` record: attributes plus the nonempty `tag`
values of `Genre` children. -/
structure PlexMediaContainerDirectory where
  dictionary_attributes : List (String × String)
  genre_list : List String
deriving DecidableEq, Repr

def mkDirectory (x : XmlNode) : PlexMediaContainerDirectory :=
  { dictionary_attributes := x.attrs
    genre_list := (x.findall "Genre").filterMap fun g =>
      let t := attGet g.attrs "tag" ""
      if t ≠ "" then some t else none }

/-- The `PlexMediaClient` record: one `Server` element of a `/clients` response. -/
structure PlexMediaClient where
  client_attributes : List (String × String)
deriving DecidableEq, Repr

def mkClient (x : XmlNode) : PlexMediaClient :=
  { client_attributes := x.attrs }

def PlexMediaClient.get_client_id (c : PlexMediaClient) : String :=
  attGet c.client_attributes "machineIdentifier" ""

def PlexMediaClient.get_client_address (c : PlexMediaClient) : String :=
  attGet c.client_attributes "address" ""

/-- Model of `get_client_port`: `int(attrs.get('port', '0'))` with `ValueError`
caught and mapped to `0`. -/
def PlexMediaClient.get_client_port (c : PlexMediaClient) : Int :=
  (pythonInt (attGet c.client_attributes "port" "0")).getD 0

/-- The `PlexMediaContainerVideoSession` record: a `Video` or `Track` element with
nested `User`/`Player`/`Media` attribute bags and a genre list (genres
are read only from non-`Track` nodes). -/
structure VideoSession where
  video_attributes : List (String × String)
  user_info : List (String × String)
  player_info : List (String × String)
  media_info : List (String × String)
  genre_list : List String
deriving DecidableEq, Repr

def subAttrs (x : XmlNode) (t : String) : List (String × String) :=
  match x.findFirst t with
  | some n => n.attrs
  | none => []

def mkVideoSession (x : XmlNode) : VideoSession :=
  { video_attributes := x.attrs
    user_info := subAttrs x "User"
    player_info := subAttrs x "Player"
    media_info := subAttrs x "Media"
    genre_list :=
      if x.tag ≠ "Track" then
        (x.findall "Genre").filterMap fun g =>
          let t := attGet g.attrs "tag" ""
          if t ≠ "" then some t else none
      else [] }

/-- The container type is derived purely from the request path. -/
def containerTypeOfPath (path : String) : Nat :=
  if path = "/" then MEDIACONTAINERTYPE_SERVERNODE
  else if path = "/clients" then MEDIACONTAINERTYPE_CLIENTLIST
  else if path = "/status/sessions" then MEDIACONTAINERTYPE_SESSIONLIST
  else MEDIACONTAINERTYPE_UNKNOWN

structure PlexMediaContainer where
  container_type : Nat
  container_attributes : List (String × String)
  directories : List PlexMediaContainerDirectory
  clients : List PlexMediaClient
  video_sessions : List VideoSession
deriving DecidableEq, Repr

/-- Model of `PlexMediaContainer.__init__` on an already well-formed document
(the `ET.ParseError → ValueError` path is modelled at call sites by
passing `Option XmlNode`).  Sessions collect every `Video` child, then
every `Track` child. -/
def mkPlexMediaContainer (root : XmlNode) (path : String) : PlexMediaContainer :=
  let ty := containerTypeOfPath path
  { container_type := ty
    container_attributes := root.attrs
    directories := (root.findall "Directory").map mkDirectory
    clients :=
      if ty = MEDIACONTAINERTYPE_CLIENTLIST then (root.findall "Server").map mkClient
      else []
    video_sessions :=
      if ty = MEDIACONTAINERTYPE_SESSIONLIST then
        ((root.findall "Video").map mkVideoSession)
          ++ ((root.findall "Track").map mkVideoSession)
      else [] }

/-! ## Indigo devices -/

/-- The slice of an Indigo device the plugin reads and writes: its type
id, its read-only plugin properties, its state bag, and its numeric id. -/
structure IndigoDevice where
  devId : Int
  deviceTypeId : String
  pluginProps : List (String × String)
  states : List (String × Val)
deriving DecidableEq, Repr

def propsGet (d : IndigoDevice) (key dflt : String) : String :=
  attGet d.pluginProps key dflt

def devStGet (d : IndigoDevice) (key : String) (dflt : Val) : Val :=
  stGet d.states key dflt

def devUpdateStates (d : IndigoDevice) (upd : List (String × Val)) : IndigoDevice :=
  { d with states := applyStates d.states upd }

/-! ## Session-to-client state mapping (`_update_client_with_session`) -/

def sessAtt (s : VideoSession) (key dflt : String) : String :=
  attGet s.video_attributes key dflt

/-- Display title (`plex_server.py` lines 630-637): for an `episode` with
a nonempty `grandparentTitle`, prefix the grandparent title. -/
def mediaTitleOf (s : VideoSession) : String :=
  let t := sessAtt s "title" ""
  if sessAtt s "type" "unknown" = "episode" then
    let gp := sessAtt s "grandparentTitle" ""
    if gp ≠ "" then gp ++ " : " ++ t else t
  else t

/-- Metadata fetches queued for a session (lines 686-690): parent key for
tracks, grandparent key for episodes, when nonempty. -/
def metadataRequestsOf (devId : Int) (s : VideoSession) : List (Int × String) :=
  let mt := sessAtt s "type" "unknown"
  if mt = "track" ∧ sessAtt s "parentKey" "" ≠ "" then
    [(devId, sessAtt s "parentKey" "")]
  else if mt = "episode" ∧ sessAtt s "grandparentKey" "" ≠ "" then
    [(devId, sessAtt s "grandparentKey" "")]
  else []

/-- Model of `_update_client_with_session` (lines 588-696).  Returns `none` where
`int(...)` on `duration`/`viewOffset` raises `ValueError`: the exception
fires before the batched `updateStatesOnServer` call, so the device is
left unchanged and no metadata fetch is queued.  Otherwise returns the
updated device and the queued metadata fetches. -/
def updateClientWithSession (dev : IndigoDevice) (s : VideoSession)
    (playerMachineId : String) : Option (IndigoDevice × List (Int × String)) :=
  match pythonInt (sessAtt s "duration" "0"), pythonInt (sessAtt s "viewOffset" "0") with
  | some contentDuration, some currentOffset =>
    let upd : List (String × Val) :=
      [("clientConnectionStatus", .str (attGet s.player_info "state" "connected")),
       ("currentUser", .str (attGet s.user_info "title" "")),
       ("currentlyPlayingMediaType", .str (sessAtt s "type" "unknown"))]
      ++ (if dev.deviceTypeId = "plexMediaClientSlot" then
            [("clientId", .str playerMachineId)]
          else [])
      ++ [("currentlyPlayingTitle", .str (mediaTitleOf s)),
          ("currentlyPlayingSummary", .str (sessAtt s "summary" "")),
          ("currentlyPlayingKey", .str (sessAtt s "key" "")),
          ("currentlyPlayingArtUrl", .str (sessAtt s "art" "")),
          ("currentlyPlayingThumbnailUrl", .str (sessAtt s "thumb" "")),
          ("currentlyPlayingParentKey", .str (sessAtt s "parentKey" "")),
          ("currentlyPlayingParentTitle", .str (sessAtt s "parentTitle" "")),
          ("currentlyPlayingParentThumbnailUrl", .str (sessAtt s "parentThumb" "")),
          ("currentlyPlayingGrandparentKey", .str (sessAtt s "grandparentKey" "")),
          ("currentlyPlayingGrandparentTitle", .str (sessAtt s "grandparentTitle" "")),
          ("currentlyPlayingGrandparentArtUrl", .str (sessAtt s "grandparentArt" "")),
          ("currentlyPlayingGrandparentThumbnailUrl", .str (sessAtt s "grandparentThumb" "")),
          ("currentlPlayingTitleYear", .str (sessAtt s "year" "")),
          ("currentlyPlayingStarRating", .str (sessAtt s "rating" "")),
          ("currentlyPlayingContentRating", .str (sessAtt s "contentRating" "")),
          ("currentlyPlayingContentResolution", .str (attGet s.media_info "videoResolution" "")),
          ("currentlyPlayingContentLengthMS", .int contentDuration),
          ("currentlyPlayingContentLengthDisplay",
            .str (pyTimedeltaStr (Int.fdiv contentDuration 1000))),
          ("currentlyPlayingContentLengthOffset", .int currentOffset),
          ("currentlyPlayingContentLengthOffsetDisplay",
            .str (pyTimedeltaStr (Int.fdiv currentOffset 1000))),
          ("currentlyPlayingContentPercentComplete",
            .int (percentComplete currentOffset contentDuration)),
          ("currentlyPlayingGenre", .str (String.intercalate "," s.genre_list)),
          ("playerDeviceTitle", .str (attGet s.player_info "title" ""))]
    some (devUpdateStates dev upd, metadataRequestsOf dev.devId s)
  | _, _ => none

/-! ## Disconnect detection (`_mark_disconnected_clients`) -/

/-- The full disconnected-state reset pushed to stale clients
(`plex_server.py` lines 708-737). -/
def disconnectedStates : List (String × Val) :=
  [("clientConnectionStatus", .str "disconnected"),
   ("clientAddress", .str ""),
   ("clientPort", .int 0),
   ("currentUser", .str ""),
   ("currentlyPlayingKey", .str ""),
   ("currentlyPlayingMediaType", .str "unknown"),
   ("currentlyPlayingParentKey", .str ""),
   ("currentlyPlayingTitle", .str ""),
   ("currentlyPlayingSummary", .str ""),
   ("currentlyPlayingArtUrl", .str ""),
   ("currentlyPlayingThumbnailUrl", .str ""),
   ("currentlyPlayingParentTitle", .str ""),
   ("currentlyPlayingParentThumbnailUrl", .str ""),
   ("currentlyPlayingGrandparentKey", .str ""),
   ("currentlyPlayingGrandparentTitle", .str ""),
   ("currentlyPlayingGrandparentArtUrl", .str ""),
   ("currentlyPlayingGrandparentThumbnailUrl", .str ""),
   ("currentlPlayingTitleYear", .str ""),
   ("currentlyPlayingStarRating", .str ""),
   ("currentlyPlayingContentRating", .str ""),
   ("currentlyPlayingContentResolution", .str ""),
   ("currentlyPlayingContentLengthMS", .int 0),
   ("currentlyPlayingContentLengthDisplay", .str ""),
   ("currentlyPlayingContentLengthOffset", .int 0),
   ("currentlyPlayingContentLengthOffsetDisplay", .str ""),
   ("currentlyPlayingContentPercentComplete", .int 0),
   ("currentlyPlayingGenre", .str ""),
   ("playerDeviceTitle", .str "")]

/-- Slot ordinal used by disconnect detection (lines 750-756): the
`plexClientId` property with `'Slot 99'` for a missing or empty value,
`'Slot '` occurrences removed, parsed by Python `int` with `ValueError`
mapped to `99`. -/
def slotNumberForDisconnect (dev : IndigoDevice) : Int :=
  let slotStr0 := propsGet dev "plexClientId" "Slot 99"
  let slotStr := if slotStr0 = "" then "Slot 99" else slotStr0
  match pythonInt (pyReplace slotStr "Slot " "") with
  | some n => n
  | none => 99

/-- Per-device body of the `_mark_disconnected_clients` roster scan. -/
def markDevice (connected : List String) (maxSlot : Nat) (dev : IndigoDevice) :
    IndigoDevice :=
  if dev.deviceTypeId = "plexMediaClient" then
    if devStGet dev "clientConnectionStatus" (.str "") ≠ .str "disconnected"
        ∧ propsGet dev "plexClientId" "" ∉ connected then
      devUpdateStates dev disconnectedStates
    else dev
  else if dev.deviceTypeId = "plexMediaClientSlot" then
    if (maxSlot : Int) < slotNumberForDisconnect dev then
      devUpdateStates dev (disconnectedStates ++ [("clientId", .str "")])
    else dev
  else dev

/-- Model of `_mark_disconnected_clients` (lines 698-762): scan the full roster. -/
def markDisconnectedClients (connected : List String) (maxSlot : Nat)
    (children : List (String × IndigoDevice)) : List (String × IndigoDevice) :=
  children.map fun kv => (kv.1, markDevice connected maxSlot kv.2)

/-! ## The server worker state (`PlexServer`) -/

def MAX_BAD_CALLS : Nat := 5

structure ServerState where
  httpAddress : String
  httpPort : Int
  requestMethod : String
  loginRequired : Bool
  username : String
  password : String
  securityToken : String
  badCalls : Nat
  lastUpdateTime : Nat
  device : IndigoDevice
  childDevices : List (String × IndigoDevice)
  currentClientList : List (String × String)
  metadataQueue : List (Int × String)
deriving DecidableEq, Repr

def childGet? (children : List (String × IndigoDevice)) (key : String) :
    Option IndigoDevice :=
  (children.find? (fun kv => kv.1 = key)).map (fun kv => kv.2)

def setChild (children : List (String × IndigoDevice)) (key : String)
    (dev : IndigoDevice) : List (String × IndigoDevice) :=
  children.map fun kv => if kv.1 = key then (kv.1, dev) else kv

/-- Model of `_handle_connection_error` (lines 911-917): bump the consecutive
failure counter; at `MAX_BAD_CALLS` flip `connectionState`. -/
def handleConnectionError (st : ServerState) : ServerState :=
  let st' := { st with badCalls := st.badCalls + 1 }
  if MAX_BAD_CALLS ≤ st'.badCalls then
    { st' with device := devUpdateStates st'.device [("connectionState", .str "Disconnected")] }
  else st'

/-! ## Response handlers -/

/-- Model of `_handle_server_info_response` (lines 452-474).  `body = none` models
a malformed-XML response (the handler's `except` swallows the error).  A
non-integer `transcoderActiveVideoSessions` raises inside the state-list
construction, so nothing is updated. -/
def handleServerInfoResponse (st : ServerState) (body : Option XmlNode) : ServerState :=
  match body with
  | none => st
  | some root =>
    let c := mkPlexMediaContainer root "/"
    if c.container_type = MEDIACONTAINERTYPE_SERVERNODE then
      match pythonInt (attGet c.container_attributes "transcoderActiveVideoSessions" "0") with
      | none => st
      | some n =>
        { st with device := (devUpdateStates st.device
            [("connectionState", .str "Connected"),
             ("serverIdentifier", .str (attGet c.container_attributes "machineIdentifier" "")),
             ("serverName", .str (attGet c.container_attributes "friendlyName" "")),
             ("serverVersion", .str (attGet c.container_attributes "version" "")),
             ("transcoderActiveVideoSessions", .int n)]) }
    else st

/-- Model of `_handle_client_list_response` (lines 476-516): refresh address/port
of the matching identified client (when not disconnected) and of every
slot whose bound `clientId` state equals the reported machine id. -/
def handleClientListResponse (st : ServerState) (body : Option XmlNode) : ServerState :=
  match body with
  | none => st
  | some root =>
    let c := mkPlexMediaContainer root "/clients"
    if c.container_type = MEDIACONTAINERTYPE_CLIENTLIST then
      c.clients.foldl (fun st pc =>
        let clientId := pc.get_client_id
        if clientId ≠ "" then
          let addrUpd : List (String × Val) :=
            [("clientAddress", .str pc.get_client_address),
             ("clientPort", .int pc.get_client_port)]
          let st1 :=
            match childGet? st.childDevices clientId with
            | some dev =>
              if devStGet dev "clientConnectionStatus" (.str "") ≠ .str "disconnected" then
                { st with childDevices :=
                    setChild st.childDevices clientId (devUpdateStates dev addrUpd) }
              else st
            | none => st
          { st1 with childDevices := st1.childDevices.map fun kv =>
              if kv.1.startsWith "Slot " ∧ devStGet kv.2 "clientId" (.str "") = .str clientId then
                (kv.1, devUpdateStates kv.2 addrUpd)
              else kv }
        else st) st
    else st

/-- One session's client updates (lines 553-567): update each matched
roster entry in turn; `false` reports a `ValueError` escaping from
`_update_client_with_session`, which aborts the whole handler while
keeping the updates already applied. -/
def updateClientsForSession (st : ServerState) (keys : List String)
    (sess : VideoSession) (machineId : String) : ServerState × Bool :=
  match keys with
  | [] => (st, true)
  | k :: ks =>
    match childGet? st.childDevices k with
    | none => updateClientsForSession st ks sess machineId
    | some dev =>
      match updateClientWithSession dev sess machineId with
      | none => (st, false)
      | some (dev', reqs) =>
        updateClientsForSession
          { st with childDevices := setChild st.childDevices k dev',
                    metadataQueue := st.metadataQueue ++ reqs }
          ks sess machineId

/-- The candidate roster entries for one session (lines 553-561): the
entity registered under the player's machine id, then the entity
registered under the current slot label. -/
def candidateKeys (children : List (String × IndigoDevice))
    (machineId slotId : String) : List String :=
  (if (childGet? children machineId).isSome then [machineId] else [])
    ++ (if (childGet? children slotId).isSome then [slotId] else [])

/-- The session loop of `_handle_sessions_response` (lines 539-575),
threading the 1-based slot ordinal, the refreshed menu list and the
connected-set.  The final `Bool` is `false` when an exception aborted the
loop. -/
def processSessions (st : ServerState) (sessions : List VideoSession)
    (slotNum : Nat) (newList : List (String × String)) (connected : List String) :
    ServerState × Nat × List (String × String) × List String × Bool :=
  match sessions with
  | [] => (st, slotNum, newList, connected, true)
  | sess :: rest =>
    let slotNum' := slotNum + 1
    let machineId := attGet sess.player_info "machineIdentifier" ""
    let playerName := attGet sess.player_info "title" machineId
    match updateClientsForSession st
        (candidateKeys st.childDevices machineId ("Slot " ++ toString slotNum'))
        sess machineId with
    | (st', false) => (st', slotNum', newList, connected, false)
    | (st', true) =>
      let newList' := if machineId ≠ "" then newList ++ [(machineId, playerName)] else newList
      let connected' := if machineId ≠ "" then connected ++ [machineId] else connected
      processSessions st' rest slotNum' newList' connected'

/-- Model of `_handle_sessions_response` (lines 518-586).  Updates the session
count, runs the reconciliation loop, marks disconnected clients and
publishes the refreshed client list and `connectedClientCount`.  On any
exception (malformed XML, non-integer `size`, a `ValueError` inside the
loop) the `except` keeps whatever was already applied. -/
def handleSessionsResponse (st : ServerState) (body : Option XmlNode) : ServerState :=
  match body with
  | none => st
  | some root =>
    let c := mkPlexMediaContainer root "/status/sessions"
    if c.container_type = MEDIACONTAINERTYPE_SESSIONLIST then
      match pythonInt (attGet c.container_attributes "size" "0") with
      | none => st
      | some sessionCount =>
        let st1 := { st with device :=
          (devUpdateStates st.device [("activeSessionsCount", .int sessionCount)]) }
        match processSessions st1 c.video_sessions 0 [] [] with
        | (st2, _, _, _, false) => st2
        | (st2, slotNum, newList, connected, true) =>
          let st3 := { st2 with childDevices :=
            markDisconnectedClients connected slotNum st2.childDevices }
          { st3 with
              currentClientList := newList,
              device := (devUpdateStates st3.device
                [("connectedClientCount", .int (newList.length : Int))]) }
    else st

/-- Model of `_handle_metadata_response` (lines 764-790): for every returned
directory, push its genre list to every roster device whose current
parent (track) or grandparent (episode) key matches.  The `device_id`
argument is accepted but never used by the source loop. -/
def handleMetadataResponse (st : ServerState) (body : Option XmlNode)
    (_deviceId : Int) : ServerState :=
  match body with
  | none => st
  | some root =>
    let c := mkPlexMediaContainer root "/library"
    c.directories.foldl (fun st dir =>
      let dirKey := pyReplace (attGet dir.dictionary_attributes "key" "") "/children" ""
      { st with childDevices := st.childDevices.map fun kv =>
          let dev := kv.2
          let mt := devStGet dev "currentlyPlayingMediaType" (.str "unknown")
          if (mt = .str "track"
                ∧ devStGet dev "currentlyPlayingParentKey" (.str "") = .str dirKey)
              ∨ (mt = .str "episode"
                ∧ devStGet dev "currentlyPlayingGrandparentKey" (.str "") = .str dirKey) then
            (kv.1, devUpdateStates dev
              [("currentlyPlayingGenre", .str (String.intercalate "," dir.genre_list))])
          else kv }) st

/-! ## HTTP layer (`_get`, `_retrieve_security_token`) -/

/-- The observable outcome of one `requests.get` call. -/
inductive HttpOutcome where
  | ok (statusCode : Nat) (body : Option XmlNode)
  | connError
  | timeout
  | otherError

/-- Model of `requests.Response.__bool__`: truthy iff the status code is below 400. -/
def responseTruthy (statusCode : Nat) : Bool := statusCode < 400

/-- Model of `_get` (lines 828-857): never raises.  A 401 with a cached token
clears the token (and the response is still returned, but it is falsy at
every call site).  A `ConnectionError` runs `_handle_connection_error`;
timeouts and other errors only log. -/
def pGet (st : ServerState) (o : HttpOutcome) :
    ServerState × Option (Nat × Option XmlNode) :=
  match o with
  | .ok code body =>
    let st' :=
      if code = 401 ∧ st.securityToken ≠ "" then { st with securityToken := "" } else st
    (st', some (code, body))
  | .connError => (handleConnectionError st, none)
  | .timeout => (st, none)
  | .otherError => (st, none)

/-- The observable outcome of the `plex.tv` sign-in POST: a status code
with the extracted `authentication-token` text (outer `none`: the body
was not XML and `ET.fromstring` raised; inner `none`: the token node is
missing or its text empty), or a network error. -/
inductive AuthOutcome where
  | resp (statusCode : Nat) (tokenText : Option (Option String))
  | netError

/-- Model of `_retrieve_security_token` (lines 859-903).  The returned `Bool`
records whether the sign-in POST was performed. -/
def retrieveSecurityToken (st : ServerState) (o : AuthOutcome) : ServerState × Bool :=
  if st.securityToken ≠ "" then (st, false)
  else if ¬ st.loginRequired then (st, false)
  else
    match o with
    | .netError => ({ st with securityToken := "" }, true)
    | .resp code tokenText =>
      if code = 201 then
        match tokenText with
        | none => ({ st with securityToken := "" }, true)
        | some none => (st, true)
        | some (some t) => ({ st with securityToken := t }, true)
      else ({ st with securityToken := "" }, true)

/-- Model of `_get_auth_headers` (lines 802-826): retrieves the token first when a
login is required (header contents are not otherwise modelled). -/
def getAuthHeaders (st : ServerState) (authO : AuthOutcome) : ServerState :=
  if st.loginRequired then (retrieveSecurityToken st authO).1 else st

def baseUrl (st : ServerState) : String :=
  st.requestMethod ++ "://" ++ st.httpAddress ++ ":" ++ toString st.httpPort

/-! ## Command handlers (`_do_status_update` and friends) -/

/-- Model of `_do_status_update` (lines 348-380), driven by the outcome of the
sign-in POST and of the three GETs.  Because `_get` catches every
exception internally and the response handlers catch their own, the
`except` branches of `_do_status_update` never fire: all three requests
are always issued (the returned list is the issued URLs in order), and
the cycle always ends by stamping the update time and zeroing
`bad_calls`. -/
def doStatusUpdate (st : ServerState) (authO : AuthOutcome)
    (oRoot oClients oSessions : HttpOutcome) (now : Nat) :
    ServerState × List String :=
  let st0 := getAuthHeaders st authO
  let u := baseUrl st0
  let (st1, r1) := pGet st0 oRoot
  let st1' :=
    match r1 with
    | some (code, body) =>
      if responseTruthy code then handleServerInfoResponse st1 body else st1
    | none => st1
  let (st2, r2) := pGet st1' oClients
  let st2' :=
    match r2 with
    | some (code, body) =>
      if responseTruthy code then handleClientListResponse st2 body else st2
    | none => st2
  let (st3, r3) := pGet st2' oSessions
  let st3' :=
    match r3 with
    | some (code, body) =>
      if responseTruthy code then handleSessionsResponse st3 body else st3
    | none => st3
  ({ st3' with lastUpdateTime := now, badCalls := 0 },
   [u ++ "/", u ++ "/clients", u ++ "/status/sessions"])

/-- Outcome of the raw `requests.get` used by `_do_download_image`. -/
inductive DlOutcome where
  | ok (statusCode : Nat)
  | raise

inductive DlEffect where
  | fileWrite (dest : String)
  | resize (dest : String) (w h : Int)
deriving DecidableEq, Repr

/-- Model of `_do_download_image` (lines 382-416): a plain `requests.get` (not
`_get`), so neither the failure counter nor the cached token is touched
by the response; on HTTP 200 the body is written and a resize is invoked
when a dimension is nonzero. -/
def doDownloadImage (st : ServerState) (authO : AuthOutcome)
    (destination : String) (width height : Int) (o : DlOutcome) :
    ServerState × List DlEffect :=
  let st0 := getAuthHeaders st authO
  match o with
  | .raise => (st0, [])
  | .ok code =>
    if code = 200 then
      (st0, [.fileWrite destination]
        ++ (if width > 0 ∨ height > 0 then [.resize destination width height] else []))
    else (st0, [])

/-- Model of `_do_get_metadata` (lines 418-434): goes through `_get`, then the
metadata handler. -/
def doGetMetadata (st : ServerState) (authO : AuthOutcome) (deviceId : Int)
    (o : HttpOutcome) : ServerState :=
  let st0 := getAuthHeaders st authO
  let (st1, r) := pGet st0 o
  match r with
  | some (code, body) =>
    if responseTruthy code then handleMetadataResponse st1 body deviceId else st1
  | none => st1

/-! ## Concrete fixtures

Concrete documents, devices and worker states used to instantiate the
theorems below. -/

/-- An interleaved sessions document: `Track`, `Video`, `Track`. -/
def interleavedSessionsRoot : XmlNode :=
  .node "MediaContainer" []
    [.node "Track" [("title", "t1")] [], .node "Video" [("title", "v1")] [],
     .node "Track" [("title", "t2")] []]

/-- The spec's scenario session: an episode `Pilot` of `Show X`, half
watched, playing on client `abc`. -/
def episodeSession : VideoSession :=
  { video_attributes := [("type", "episode"), ("title", "Pilot"),
      ("grandparentTitle", "Show X"), ("viewOffset", "30000"), ("duration", "60000")],
    user_info := [("title", "joe")],
    player_info := [("machineIdentifier", "abc"), ("state", "playing"), ("title", "TV")],
    media_info := [], genre_list := [] }

/-- A registered slot device for ordinal 1. -/
def slotOneDevice : IndigoDevice :=
  { devId := 7, deviceTypeId := "plexMediaClientSlot",
    pluginProps := [("plexClientId", "Slot 1")], states := [] }

/-- The device produced by pushing `episodeSession` onto `slotOneDevice`. -/
def episodeUpdatedDevice : IndigoDevice :=
  match updateClientWithSession slotOneDevice episodeSession "abc" with
  | some (d, _) => d
  | none => slotOneDevice

/-- The metadata fetches queued by that same update. -/
def episodeUpdateRequests : List (Int × String) :=
  match updateClientWithSession slotOneDevice episodeSession "abc" with
  | some (_, r) => r
  | none => []

/-- The server's own Indigo device, as fresh fixtures use it. -/
def serverDeviceEx : IndigoDevice :=
  { devId := 1, deviceTypeId := "plexMediaServer", pluginProps := [], states := [] }

/-- A freshly constructed worker for an anonymous-access server. -/
def serverStateEx : ServerState :=
  { httpAddress := "192.168.1.10", httpPort := 32400, requestMethod := "http",
    loginRequired := false, username := "", password := "", securityToken := "",
    badCalls := 0, lastUpdateTime := 0, device := serverDeviceEx,
    childDevices := [], currentClientList := [], metadataQueue := [] }

/-- A worker that requires login and has a cached token. -/
def tokenCachedState : ServerState :=
  { serverStateEx with
    loginRequired := true
    username := "u"
    password := "p"
    securityToken := "tok" }

/-- A registered identified client currently marked as playing. -/
def playingIdentifiedDevice : IndigoDevice :=
  { devId := 4, deviceTypeId := "plexMediaClient",
    pluginProps := [("plexClientId", "machA")],
    states := [("clientConnectionStatus", .str "playing")] }

/-- A slot-2 device bound to a client. -/
def boundSlotTwoDevice : IndigoDevice :=
  { devId := 5, deviceTypeId := "plexMediaClientSlot",
    pluginProps := [("plexClientId", "Slot 2")],
    states := [("clientConnectionStatus", .str "playing"), ("clientId", .str "machB")] }

/-- A slot device whose configured label is the bare integer `"3"`. -/
def bareNumberSlotDevice : IndigoDevice :=
  { devId := 9, deviceTypeId := "plexMediaClientSlot",
    pluginProps := [("plexClientId", "3")],
    states := [("clientConnectionStatus", .str "playing")] }

/-- A healthy server-root response. -/
def rootInfoEx : XmlNode :=
  .node "MediaContainer"
    [("friendlyName", "plex"), ("machineIdentifier", "srv1"), ("version", "1.0")] []

/-- An empty sessions response. -/
def emptySessionsEx : XmlNode := .node "MediaContainer" [("size", "0")] []

/-- A one-session response: one video playing on client `abc`. -/
def sessionsRootEx : XmlNode :=
  .node "MediaContainer" [("size", "1")]
    [.node "Video" [("title", "Movie"), ("duration", "60000"), ("viewOffset", "30000")]
      [.node "Player" [("machineIdentifier", "abc"), ("title", "TV")] []]]

/-- A worker that has already seen four consecutive connection errors. -/
def fourFailState : ServerState := { serverStateEx with badCalls := 4 }

/-- One poll cycle in which every request raises a connection error. -/
def allFailCycle (s : ServerState) : ServerState :=
  (doStatusUpdate s .netError .connError .connError .connError 0).1

/-! ## Helper lemmas -/

/-- In an association list with pairwise distinct keys, `find?` on a
member's key returns exactly that member. -/
theorem find?_key_eq_of_mem {β : Type} (l : List (String × β)) (kv : String × β)
    (hnd : (l.map Prod.fst).Nodup) (hm : kv ∈ l) :
    l.find? (fun x => x.1 = kv.1) = some kv := by
  induction l with
  | nil => cases hm
  | cons a t ih =>
    rw [List.map_cons, List.nodup_cons] at hnd
    rcases List.mem_cons.mp hm with heq | hm'
    · rw [heq]
      exact List.find?_cons_of_pos t (by simp)
    · have hkey : kv.1 ∈ t.map Prod.fst := List.mem_map_of_mem Prod.fst hm'
      have hane : a.1 ≠ kv.1 := fun he => hnd.1 (by rw [he]; exact hkey)
      rw [List.find?_cons_of_neg t (by simpa using hane)]
      exact ih hnd.2 hm'

/-- A batched state update with pairwise distinct keys makes every
written key readable back with its written value. -/
theorem stGet?_applyStates_of_mem (st upd : List (String × Val))
    (hnd : (upd.map Prod.fst).Nodup) (kv : String × Val) (hm : kv ∈ upd) :
    stGet? (applyStates st upd) kv.1 = some kv.2 := by
  have hnd' : (upd.reverse.map Prod.fst).Nodup := by
    rw [List.map_reverse]; exact List.nodup_reverse.mpr hnd
  have hm' : kv ∈ upd.reverse := List.mem_reverse.mpr hm
  have hfind := find?_key_eq_of_mem upd.reverse kv hnd' hm'
  simp [stGet?, applyStates, List.find?_append, hfind]

/-! ## Claim theorems -/

/-- C5 (counterexample): the claim that a nonzero percent-complete equals
`floor(100 * offset / duration)` for all nonnegative integers fails: at
`offset = 29`, `duration = 100` the code's double-precision computation
`int((29/100) * 100.0)` yields `28`, while the exact floor is `29`. -/
theorem percentComplete_not_exact_floor :
    percentComplete 29 100 = 28 ∧ ((100 * 29 : Int) / 100 = 29) ∧
      percentComplete 29 100 ≠ (100 * 29 : Int) / 100 := by
  decide

/-- C5 (amended): if the view offset is 0 or the duration is 0 the
percent-complete is 0; otherwise it is the `int()` truncation of the
binary64 computation `(offset / duration) * 100.0`, which matches the
exact floor on typical inputs (the spec's scenario `30000 / 60000 ↦ 50`)
but not universally (`29 / 100 ↦ 28`). -/
theorem percentComplete_spec :
    (∀ offset duration : Int, offset = 0 ∨ duration = 0 →
      percentComplete offset duration = 0) ∧
    percentComplete 30000 60000 = 50 ∧ percentComplete 29 100 = 28 := by
  refine ⟨?_, by decide, by decide⟩
  intro o d h
  unfold percentComplete
  rw [if_pos h]

theorem percentComplete_spec_witness :
    ((0 : Int) = 0 ∨ (60000 : Int) = 0) ∧ percentComplete 0 60000 = 0 :=
  ⟨Or.inl rfl, percentComplete_spec.1 0 60000 (Or.inl rfl)⟩

/-- C6: in the state update pushed for a session, the displayed title is
`"{grandparentTitle} : {title}"` exactly for `episode`-typed sessions with
a nonempty grandparent title, and the plain session title otherwise. -/
theorem displayed_title_spec (dev : IndigoDevice) (s : VideoSession)
    (mid : String) (dev' : IndigoDevice) (reqs : List (Int × String))
    (h : updateClientWithSession dev s mid = some (dev', reqs)) :
    (sessAtt s "type" "unknown" = "episode" → sessAtt s "grandparentTitle" "" ≠ "" →
      devStGet dev' "currentlyPlayingTitle" (.str "") =
        .str (sessAtt s "grandparentTitle" "" ++ " : " ++ sessAtt s "title" "")) ∧
    ((sessAtt s "type" "unknown" ≠ "episode" ∨ sessAtt s "grandparentTitle" "" = "") →
      devStGet dev' "currentlyPlayingTitle" (.str "") = .str (sessAtt s "title" "")) := by
  cases hd : pythonInt (sessAtt s "duration" "0") with
  | none => rw [updateClientWithSession, hd] at h; cases h
  | some cd =>
  cases ho : pythonInt (sessAtt s "viewOffset" "0") with
  | none => rw [updateClientWithSession, hd, ho] at h; cases h
  | some co =>
  rw [updateClientWithSession, hd, ho, Option.some.injEq, Prod.mk.injEq] at h
  obtain ⟨hdev, -⟩ := h
  subst hdev
  constructor
  · intro hty hgp
    by_cases hslot : dev.deviceTypeId = "plexMediaClientSlot" <;>
      simp [devStGet, stGet, devUpdateStates, applyStates, hslot, mediaTitleOf,
        hty, hgp, List.find?]
  · intro hother
    have hval : mediaTitleOf s = sessAtt s "title" "" := by
      unfold mediaTitleOf
      rcases hother with hty | hgp
      · rw [if_neg hty]
      · by_cases hty : sessAtt s "type" "unknown" = "episode"
        · rw [if_pos hty, hgp, if_neg (by simp)]
        · rw [if_neg hty]
    by_cases hslot : dev.deviceTypeId = "plexMediaClientSlot" <;>
      simp [devStGet, stGet, devUpdateStates, applyStates, hslot, hval, List.find?]

theorem displayed_title_spec_witness :
    updateClientWithSession slotOneDevice episodeSession "abc" =
      some (episodeUpdatedDevice, episodeUpdateRequests) ∧
    sessAtt episodeSession "type" "unknown" = "episode" ∧
    sessAtt episodeSession "grandparentTitle" "" ≠ "" ∧
    devStGet episodeUpdatedDevice "currentlyPlayingTitle" (.str "") =
      .str "Show X : Pilot" := by
  refine ⟨by decide, by decide, by decide, ?_⟩
  have h := (displayed_title_spec slotOneDevice episodeSession "abc"
      episodeUpdatedDevice episodeUpdateRequests (by decide)).1 (by decide) (by decide)
  exact h.trans (by decide)

/-- With a cached token, `_retrieve_security_token` returns at once. -/
theorem retrieve_token_cached_eq (st : ServerState) (o : AuthOutcome)
    (h : st.securityToken ≠ "") :
    retrieveSecurityToken st o = (st, false) := by
  unfold retrieveSecurityToken
  rw [if_pos h]

/-- With a cached token, `_get_auth_headers` leaves the state unchanged. -/
theorem getAuthHeaders_cached (st : ServerState) (o : AuthOutcome)
    (h : st.securityToken ≠ "") :
    getAuthHeaders st o = st := by
  unfold getAuthHeaders
  by_cases hl : st.loginRequired
  · rw [if_pos hl, retrieve_token_cached_eq st o h]
  · rw [if_neg hl]

/-- C8: retrieving the auth token while one is cached is a pure no-op:
no sign-in POST is performed, the whole server state is unchanged, and a
second call from that state changes nothing either. -/
theorem retrieveSecurityToken_cached_noop (st : ServerState) (o o' : AuthOutcome)
    (h : st.securityToken ≠ "") :
    retrieveSecurityToken st o = (st, false) ∧
    retrieveSecurityToken (retrieveSecurityToken st o).1 o' = (st, false) := by
  refine ⟨retrieve_token_cached_eq st o h, ?_⟩
  rw [retrieve_token_cached_eq st o h]
  show retrieveSecurityToken st o' = (st, false)
  exact retrieve_token_cached_eq st o' h

/-- C9: in a parsed session list, every `Video`-derived session precedes
every `Track`-derived session whatever the interleaving of the two tags:
position `i < #Video` holds the `i`-th `Video` child and position
`#Video + j` holds the `j`-th `Track` child, so the 1-based slot ordinals
of all video sessions are below those of all audio sessions. -/
theorem sessionlist_videos_before_tracks (root : XmlNode) :
    (∀ i, i < (root.findall "Video").length →
      ((mkPlexMediaContainer root "/status/sessions").video_sessions)[i]? =
        ((root.findall "Video")[i]?).map mkVideoSession) ∧
    (∀ j,
      ((mkPlexMediaContainer root "/status/sessions").video_sessions)[
          (root.findall "Video").length + j]? =
        ((root.findall "Track")[j]?).map mkVideoSession) := by
  have hsess : (mkPlexMediaContainer root "/status/sessions").video_sessions =
      (root.findall "Video").map mkVideoSession
        ++ (root.findall "Track").map mkVideoSession := by
    simp [mkPlexMediaContainer, containerTypeOfPath, MEDIACONTAINERTYPE_SERVERNODE,
      MEDIACONTAINERTYPE_CLIENTLIST, MEDIACONTAINERTYPE_SESSIONLIST,
      MEDIACONTAINERTYPE_UNKNOWN]
  constructor
  · intro i hi
    rw [hsess, List.getElem?_append, if_pos (by simpa using hi),
      List.getElem?_map]
  · intro j
    rw [hsess, List.getElem?_append_right (by simp), List.getElem?_map,
      List.length_map, Nat.add_sub_cancel_left]

theorem sessionlist_videos_before_tracks_witness :
    0 < (interleavedSessionsRoot.findall "Video").length ∧
    ((mkPlexMediaContainer interleavedSessionsRoot "/status/sessions").video_sessions)[0]? =
      ((interleavedSessionsRoot.findall "Video")[0]?).map mkVideoSession ∧
    ((mkPlexMediaContainer interleavedSessionsRoot "/status/sessions").video_sessions)[
        (interleavedSessionsRoot.findall "Video").length + 1]? =
      ((interleavedSessionsRoot.findall "Track")[1]?).map mkVideoSession := by
  refine ⟨by decide, ?_, ?_⟩
  · exact (sessionlist_videos_before_tracks interleavedSessionsRoot).1 0 (by decide)
  · exact (sessionlist_videos_before_tracks interleavedSessionsRoot).2 1

theorem retrieveSecurityToken_cached_noop_witness :
    tokenCachedState.securityToken ≠ "" ∧
    retrieveSecurityToken tokenCachedState .netError = (tokenCachedState, false) ∧
    retrieveSecurityToken (retrieveSecurityToken tokenCachedState .netError).1
      (.resp 201 (some (some "other"))) = (tokenCachedState, false) := by
  have h := retrieveSecurityToken_cached_noop tokenCachedState .netError
    (.resp 201 (some (some "other"))) (by decide)
  exact ⟨by decide, h.1, h.2⟩

/-- C1: after the disconnect scan, every registered entity stays in the
roster; an Identified entity that is not disconnected and whose machine
id missed the connected-set reads back the full disconnected reset, and a
Slotted entity whose ordinal exceeds the session count reads back the
same reset plus a cleared bound identifier. -/
theorem mark_disconnected_reset (connected : List String) (maxSlot : Nat)
    (children : List (String × IndigoDevice)) (key : String) (dev : IndigoDevice)
    (hm : (key, dev) ∈ children) :
    ((key, markDevice connected maxSlot dev) ∈
      markDisconnectedClients connected maxSlot children) ∧
    (dev.deviceTypeId = "plexMediaClient" →
      devStGet dev "clientConnectionStatus" (.str "") ≠ .str "disconnected" →
      propsGet dev "plexClientId" "" ∉ connected →
      ∀ kv ∈ disconnectedStates,
        stGet? (markDevice connected maxSlot dev).states kv.1 = some kv.2) ∧
    (dev.deviceTypeId = "plexMediaClientSlot" →
      (maxSlot : Int) < slotNumberForDisconnect dev →
      (∀ kv ∈ disconnectedStates,
        stGet? (markDevice connected maxSlot dev).states kv.1 = some kv.2) ∧
      stGet? (markDevice connected maxSlot dev).states "clientId" = some (.str "")) := by
  refine ⟨List.mem_map_of_mem _ hm, ?_, ?_⟩
  · intro hty hst hnc
    have hmark : markDevice connected maxSlot dev = devUpdateStates dev disconnectedStates := by
      unfold markDevice
      rw [if_pos hty, if_pos ⟨hst, hnc⟩]
    rw [hmark]
    intro kv hkv
    exact stGet?_applyStates_of_mem dev.states disconnectedStates (by decide) kv hkv
  · intro hty hslot
    have hne : dev.deviceTypeId ≠ "plexMediaClient" := by rw [hty]; decide
    have hmark : markDevice connected maxSlot dev =
        devUpdateStates dev (disconnectedStates ++ [("clientId", .str "")]) := by
      unfold markDevice
      rw [if_neg hne, if_pos hty, if_pos hslot]
    rw [hmark]
    refine ⟨fun kv hkv => ?_, ?_⟩
    · exact stGet?_applyStates_of_mem dev.states _ (by decide) kv
        (List.mem_append_left _ hkv)
    · exact stGet?_applyStates_of_mem dev.states _ (by decide) ("clientId", .str "")
        (List.mem_append_right _ (by decide))

theorem mark_disconnected_reset_witness :
    (("machA", playingIdentifiedDevice) ∈
      [("machA", playingIdentifiedDevice), ("Slot 2", boundSlotTwoDevice)]) ∧
    stGet? (markDevice [] 1 playingIdentifiedDevice).states "clientConnectionStatus" =
      some (.str "disconnected") ∧
    stGet? (markDevice [] 1 boundSlotTwoDevice).states "clientConnectionStatus" =
      some (.str "disconnected") ∧
    stGet? (markDevice [] 1 boundSlotTwoDevice).states "clientId" = some (.str "") := by
  have hid := mark_disconnected_reset [] 1
    [("machA", playingIdentifiedDevice), ("Slot 2", boundSlotTwoDevice)]
    "machA" playingIdentifiedDevice (by decide)
  have hslot := mark_disconnected_reset [] 1
    [("machA", playingIdentifiedDevice), ("Slot 2", boundSlotTwoDevice)]
    "Slot 2" boundSlotTwoDevice (by decide)
  refine ⟨by decide, ?_, ?_, ?_⟩
  · exact hid.2.1 (by decide) (by decide) (by decide)
      ("clientConnectionStatus", .str "disconnected") (by decide)
  · exact (hslot.2.2 (by decide) (by decide)).1
      ("clientConnectionStatus", .str "disconnected") (by decide)
  · exact (hslot.2.2 (by decide) (by decide)).2

/-- C10 (counterexample): a slot label that is not of the form
`"Slot {n}"` is not always treated as ordinal 99: the bare-integer label
`"3"` parses to ordinal 3, so in a cycle with 3 sessions (3 < 99) the
device receives no disconnect reset, contrary to the claim. -/
theorem slot_label_fallback_counterexample :
    slotNumberForDisconnect bareNumberSlotDevice = 3 ∧
    slotNumberForDisconnect bareNumberSlotDevice ≠ 99 ∧
    (3 : Nat) < 99 ∧
    markDevice [] 3 bareNumberSlotDevice = bareNumberSlotDevice ∧
    stGet? (markDevice [] 3 bareNumberSlotDevice).states "clientConnectionStatus" =
      some (.str "playing") := by
  decide

/-- C10 (amended): the disconnect ordinal of a Slotted entity is obtained
by deleting every `'Slot '` occurrence from the configured label (a
missing or empty label counts as `'Slot 99'`) and parsing the remainder
as a Python int, with parse failure mapped to 99; the entity receives the
reset with its bound identifier cleared exactly when that ordinal exceeds
the session count. -/
theorem slot_label_fallback_amended (connected : List String) (maxSlot : Nat)
    (dev : IndigoDevice) (hty : dev.deviceTypeId = "plexMediaClientSlot") :
    (propsGet dev "plexClientId" "" = "" → slotNumberForDisconnect dev = 99) ∧
    (∀ n : Int, propsGet dev "plexClientId" "" ≠ "" →
      pythonInt (pyReplace (propsGet dev "plexClientId" "") "Slot " "") = some n →
      slotNumberForDisconnect dev = n) ∧
    (propsGet dev "plexClientId" "" ≠ "" →
      pythonInt (pyReplace (propsGet dev "plexClientId" "") "Slot " "") = none →
      slotNumberForDisconnect dev = 99) ∧
    ((maxSlot : Int) < slotNumberForDisconnect dev →
      stGet? (markDevice connected maxSlot dev).states "clientId" = some (.str "") ∧
      stGet? (markDevice connected maxSlot dev).states "clientConnectionStatus" =
        some (.str "disconnected")) ∧
    (slotNumberForDisconnect dev ≤ (maxSlot : Int) →
      markDevice connected maxSlot dev = dev) := by
  have hne : dev.deviceTypeId ≠ "plexMediaClient" := by rw [hty]; decide
  refine ⟨?_, ?_, ?_, ?_, ?_⟩
  · intro hempty
    cases hfind : dev.pluginProps.find? (fun kv => kv.1 = "plexClientId") with
    | none =>
      simp only [slotNumberForDisconnect, propsGet, attGet, hfind]
      decide
    | some kv =>
      have hv : kv.2 = "" := by simpa [propsGet, attGet, hfind] using hempty
      simp only [slotNumberForDisconnect, propsGet, attGet, hfind, hv]
      decide
  · intro n hnempty hparse
    cases hfind : dev.pluginProps.find? (fun kv => kv.1 = "plexClientId") with
    | none =>
      exact absurd (by simp [propsGet, attGet, hfind]) hnempty
    | some kv =>
      have hv : propsGet dev "plexClientId" "" = kv.2 := by simp [propsGet, attGet, hfind]
      rw [hv] at hnempty hparse
      simp [slotNumberForDisconnect, propsGet, attGet, hfind, hnempty, hparse]
  · intro hnempty hparse
    cases hfind : dev.pluginProps.find? (fun kv => kv.1 = "plexClientId") with
    | none =>
      exact absurd (by simp [propsGet, attGet, hfind]) hnempty
    | some kv =>
      have hv : propsGet dev "plexClientId" "" = kv.2 := by simp [propsGet, attGet, hfind]
      rw [hv] at hnempty hparse
      simp [slotNumberForDisconnect, propsGet, attGet, hfind, hnempty, hparse]
  · intro hslot
    have hmark : markDevice connected maxSlot dev =
        devUpdateStates dev (disconnectedStates ++ [("clientId", .str "")]) := by
      unfold markDevice
      rw [if_neg hne, if_pos hty, if_pos hslot]
    rw [hmark]
    refine ⟨?_, ?_⟩
    · exact stGet?_applyStates_of_mem dev.states _ (by decide) ("clientId", .str "")
        (List.mem_append_right _ (by decide))
    · exact stGet?_applyStates_of_mem dev.states _ (by decide)
        ("clientConnectionStatus", .str "disconnected") (List.mem_append_left _ (by decide))
  · intro hle
    unfold markDevice
    rw [if_neg hne, if_pos hty, if_neg (by omega)]

theorem slot_label_fallback_amended_witness :
    bareNumberSlotDevice.deviceTypeId = "plexMediaClientSlot" ∧
    slotNumberForDisconnect bareNumberSlotDevice ≤ ((3 : Nat) : Int) ∧
    markDevice [] 3 bareNumberSlotDevice = bareNumberSlotDevice ∧
    ((2 : Nat) : Int) < slotNumberForDisconnect bareNumberSlotDevice ∧
    stGet? (markDevice [] 2 bareNumberSlotDevice).states "clientId" = some (.str "") := by
  have h3 := slot_label_fallback_amended [] 3 bareNumberSlotDevice (by decide)
  have h2 := slot_label_fallback_amended [] 2 bareNumberSlotDevice (by decide)
  refine ⟨by decide, by decide, h3.2.2.2.2 (by decide), by decide, (h2.2.2.2.1 (by decide)).1⟩

/-- A session whose `duration` and `viewOffset` attributes parse as
Python ints yields a successful client update for any device. -/
theorem updateClientWithSession_isSome (dev : IndigoDevice) (s : VideoSession)
    (mid : String)
    (h1 : (pythonInt (sessAtt s "duration" "0")).isSome)
    (h2 : (pythonInt (sessAtt s "viewOffset" "0")).isSome) :
    (updateClientWithSession dev s mid).isSome := by
  obtain ⟨cd, hcd⟩ := Option.isSome_iff_exists.mp h1
  obtain ⟨co, hco⟩ := Option.isSome_iff_exists.mp h2
  rw [updateClientWithSession, hcd, hco]
  rfl

/-- When a session's numeric attributes parse, the per-session candidate
update loop never aborts. -/
theorem updateClientsForSession_ok (s : VideoSession) (mid : String)
    (h1 : (pythonInt (sessAtt s "duration" "0")).isSome)
    (h2 : (pythonInt (sessAtt s "viewOffset" "0")).isSome) :
    ∀ (keys : List String) (st : ServerState),
      (updateClientsForSession st keys s mid).2 = true := by
  intro keys
  induction keys with
  | nil => intro st; rfl
  | cons k ks ih =>
    intro st
    rw [updateClientsForSession]
    cases hc : childGet? st.childDevices k with
    | none =>
      simp only [hc]
      exact ih st
    | some dev =>
      simp only [hc]
      have hs := updateClientWithSession_isSome dev s mid h1 h2
      cases hu : updateClientWithSession dev s mid with
      | none => rw [hu] at hs; cases hs
      | some pr =>
        cases pr with
        | mk dev' reqs =>
          simp only [hu]
          exact ih _

/-- The reconciliation loop terminates normally when every session's
numeric attributes parse, and the refreshed menu list grows by exactly
one entry per session with a non-empty player machine id. -/
theorem processSessions_spec (sessions : List VideoSession) :
    ∀ (st : ServerState) (slotNum : Nat) (newList : List (String × String))
      (connected : List String),
      (∀ sess ∈ sessions, (pythonInt (sessAtt sess "duration" "0")).isSome ∧
          (pythonInt (sessAtt sess "viewOffset" "0")).isSome) →
      (processSessions st sessions slotNum newList connected).2.2.2.2 = true ∧
      (processSessions st sessions slotNum newList connected).2.2.1.length =
        newList.length + (sessions.filter
          (fun sess => attGet sess.player_info "machineIdentifier" "" ≠ "")).length := by
  induction sessions with
  | nil =>
    intro st slotNum newList connected _
    exact ⟨rfl, by simp [processSessions]⟩
  | cons sess rest ih =>
    intro st slotNum newList connected h
    have hsess := h sess (List.mem_cons_self sess rest)
    have hrest : ∀ s ∈ rest, (pythonInt (sessAtt s "duration" "0")).isSome ∧
        (pythonInt (sessAtt s "viewOffset" "0")).isSome :=
      fun s hs => h s (List.mem_cons_of_mem sess hs)
    have hok := updateClientsForSession_ok sess
      (attGet sess.player_info "machineIdentifier" "") hsess.1 hsess.2
    cases hu : updateClientsForSession st
        (candidateKeys st.childDevices (attGet sess.player_info "machineIdentifier" "")
          ("Slot " ++ toString (slotNum + 1)))
        sess (attGet sess.player_info "machineIdentifier" "") with
    | mk st' b =>
      have hb : b = true := by
        have hh := hok (candidateKeys st.childDevices
          (attGet sess.player_info "machineIdentifier" "")
          ("Slot " ++ toString (slotNum + 1))) st
        rw [hu] at hh
        exact hh
      subst hb
      have hred : processSessions st (sess :: rest) slotNum newList connected =
          processSessions st' rest (slotNum + 1)
            (if attGet sess.player_info "machineIdentifier" "" ≠ "" then
              newList ++ [(attGet sess.player_info "machineIdentifier" "",
                attGet sess.player_info "title"
                  (attGet sess.player_info "machineIdentifier" ""))]
             else newList)
            (if attGet sess.player_info "machineIdentifier" "" ≠ "" then
              connected ++ [attGet sess.player_info "machineIdentifier" ""]
             else connected) := by
        rw [processSessions, hu]
      rw [hred]
      by_cases hmid : attGet sess.player_info "machineIdentifier" "" = ""
      · rw [if_neg (by simp [hmid]), if_neg (by simp [hmid])]
        have hih := ih st' (slotNum + 1) newList connected hrest
        refine ⟨hih.1, ?_⟩
        rw [hih.2, List.filter_cons, if_neg (by simp [hmid])]
      · rw [if_pos hmid, if_pos hmid]
        have hih := ih st' (slotNum + 1)
          (newList ++ [(attGet sess.player_info "machineIdentifier" "",
            attGet sess.player_info "title"
              (attGet sess.player_info "machineIdentifier" ""))])
          (connected ++ [attGet sess.player_info "machineIdentifier" ""]) hrest
        refine ⟨hih.1, ?_⟩
        rw [hih.2]
        simp [List.filter_cons, hmid]
        omega

/-- Reading back a single-key batched update returns the written value. -/
theorem devStGet_single_update (d : IndigoDevice) (k : String) (v : Val) (dflt : Val) :
    devStGet (devUpdateStates d [(k, v)]) k dflt = v := by
  simp [devStGet, stGet, devUpdateStates, applyStates, List.find?]

/-- C7: when a sessions response is processed to completion (its `size`
attribute and every session's numeric attributes parse), the server's
`connectedClientCount` state equals the number of session records whose
player machine identifier is non-empty, duplicates counted. -/
theorem connectedClientCount_spec (st : ServerState) (root : XmlNode) (n : Int)
    (hsize : pythonInt (attGet root.attrs "size" "0") = some n)
    (hsess : ∀ sess ∈ (mkPlexMediaContainer root "/status/sessions").video_sessions,
      (pythonInt (sessAtt sess "duration" "0")).isSome ∧
      (pythonInt (sessAtt sess "viewOffset" "0")).isSome) :
    devStGet (handleSessionsResponse st (some root)).device
        "connectedClientCount" (.int (-1)) =
      .int (((mkPlexMediaContainer root "/status/sessions").video_sessions.filter
        (fun sess => attGet sess.player_info "machineIdentifier" "" ≠ "")).length : Int) := by
  have hps := processSessions_spec
    (mkPlexMediaContainer root "/status/sessions").video_sessions
    { st with device := devUpdateStates st.device [("activeSessionsCount", .int n)] }
    0 [] [] hsess
  rcases hp : processSessions
      { st with device := devUpdateStates st.device [("activeSessionsCount", .int n)] }
      (mkPlexMediaContainer root "/status/sessions").video_sessions 0 [] []
    with ⟨st2, sn, nl, cn, ok⟩
  rw [hp] at hps
  have hok : ok = true := hps.1
  subst hok
  have hlen : nl.length =
      ((mkPlexMediaContainer root "/status/sessions").video_sessions.filter
        (fun sess => attGet sess.player_info "machineIdentifier" "" ≠ "")).length := by
    simpa using hps.2
  have hred : handleSessionsResponse st (some root) =
      { st2 with
          childDevices := markDisconnectedClients cn sn st2.childDevices,
          currentClientList := nl,
          device := (devUpdateStates st2.device
            [("connectedClientCount", .int (nl.length : Int))]) } := by
    rw [handleSessionsResponse]
    rw [if_pos (show (mkPlexMediaContainer root "/status/sessions").container_type =
      MEDIACONTAINERTYPE_SESSIONLIST from rfl)]
    rw [show (mkPlexMediaContainer root "/status/sessions").container_attributes =
      root.attrs from rfl, hsize]
    dsimp only
    rw [hp]
  rw [hred]
  rw [show ({ st2 with
      childDevices := markDisconnectedClients cn sn st2.childDevices,
      currentClientList := nl,
      device := (devUpdateStates st2.device
        [("connectedClientCount", .int (nl.length : Int))]) } : ServerState).device =
    devUpdateStates st2.device [("connectedClientCount", .int (nl.length : Int))] from rfl]
  rw [devStGet_single_update, hlen]

theorem connectedClientCount_spec_witness :
    devStGet (handleSessionsResponse serverStateEx (some sessionsRootEx)).device
        "connectedClientCount" (.int (-1)) = .int 1 := by
  have h := connectedClientCount_spec serverStateEx sessionsRootEx 1 (by decide) (by decide)
  exact h.trans (by decide)

/-- C2 (evidence): the source's failure policy differs from the claim.
First run: a connection error on the root request does not abort the
cycle — all three URLs are still issued, the sessions response is still
processed (`activeSessionsCount` gets written), and the counter ends the
cycle reset to 0.  Second run: a connection error on `/clients` does
increment the counter inside `_get` — starting from 4 accumulated
failures it reaches the threshold and flips `connectionState` to
`Disconnected` even though the root request succeeded. -/
theorem status_cycle_failure_policy_eval :
    ((doStatusUpdate serverStateEx .netError .connError .timeout
        (.ok 200 (some emptySessionsEx)) 5).2 =
      ["http://192.168.1.10:32400/", "http://192.168.1.10:32400/clients",
       "http://192.168.1.10:32400/status/sessions"]) ∧
    (doStatusUpdate serverStateEx .netError .connError .timeout
        (.ok 200 (some emptySessionsEx)) 5).1.badCalls = 0 ∧
    devStGet (doStatusUpdate serverStateEx .netError .connError .timeout
        (.ok 200 (some emptySessionsEx)) 5).1.device "activeSessionsCount" (.int (-1)) =
      .int 0 ∧
    devStGet (doStatusUpdate fourFailState .netError (.ok 200 (some rootInfoEx))
        .connError (.ok 200 (some emptySessionsEx)) 5).1.device
        "connectionState" (.str "") = .str "Disconnected" ∧
    (doStatusUpdate fourFailState .netError (.ok 200 (some rootInfoEx))
        .connError (.ok 200 (some emptySessionsEx)) 5).1.badCalls = 0 := by
  decide

/-- C3 (evidence): five consecutive poll cycles whose root request raises
a connection error never flip the server's `connectionState`: the
unconditional `bad_calls = 0` at the end of `_do_status_update` caps the
counter at 3 within a cycle, so the threshold of 5 is never reached and
no `Disconnected` state is ever written. -/
theorem five_root_failures_eval :
    (allFailCycle (allFailCycle (allFailCycle (allFailCycle
        (allFailCycle serverStateEx))))).badCalls = 0 ∧
    stGet? (allFailCycle (allFailCycle (allFailCycle (allFailCycle
        (allFailCycle serverStateEx))))).device.states "connectionState" = none ∧
    (allFailCycle serverStateEx).badCalls = 0 ∧
    MAX_BAD_CALLS = 5 := by
  decide

/-- C4 (counterexample): an image download is issued with the raw
`requests.get`, not `_get`: an HTTP 401 on it leaves the cached token in
place, so not every authenticated request clears the token on 401. -/
theorem image_download_401_keeps_token :
    tokenCachedState.securityToken = "tok" ∧
    (doDownloadImage tokenCachedState .netError "/tmp/art.jpg" 0 0
        (.ok 401)).1.securityToken = "tok" := by
  decide

/-- C4 (amended): requests issued through the `_get` helper — the three
status-update sub-requests and metadata fetches — clear the cached token
on a 401 while a token is cached; image downloads bypass `_get` and leave
the token untouched. -/
theorem unauthorized_clears_token_via_get (st : ServerState) (body : Option XmlNode)
    (authO : AuthOutcome) (deviceId : Int) (dest : String) (w hgt : Int)
    (dlo : DlOutcome) (h : st.securityToken ≠ "") :
    (pGet st (.ok 401 body)).1.securityToken = "" ∧
    (doGetMetadata st authO deviceId (.ok 401 body)).securityToken = "" ∧
    (doDownloadImage st authO dest w hgt dlo).1.securityToken = st.securityToken := by
  have hget : (pGet st (.ok 401 body)).1.securityToken = "" := by
    simp [pGet, h]
  refine ⟨hget, ?_, ?_⟩
  · unfold doGetMetadata
    rw [getAuthHeaders_cached st authO h]
    simp [pGet, h, responseTruthy]
  · unfold doDownloadImage
    rw [getAuthHeaders_cached st authO h]
    cases dlo with
    | raise => rfl
    | ok code => simp [apply_ite]

theorem unauthorized_clears_token_via_get_witness :
    tokenCachedState.securityToken ≠ "" ∧
    (pGet tokenCachedState (.ok 401 none)).1.securityToken = "" ∧
    (doGetMetadata tokenCachedState .netError 7 (.ok 401 none)).securityToken = "" ∧
    (doDownloadImage tokenCachedState .netError "/tmp/art.jpg" 0 0
        (.ok 401)).1.securityToken = tokenCachedState.securityToken := by
  have h := unauthorized_clears_token_via_get tokenCachedState none .netError 7
    "/tmp/art.jpg" 0 0 (.ok 401) (by decide)
  exact ⟨by decide, h.1, h.2.1, h.2.2⟩

end PlexSpec

